import Mathlib

/-!
Verification of the booking-creation and capacity-enforcement core of the
luzz booking platform.

The embedding models the relational store (studios, customers, children,
slots, bookings, invites, studio_owners) as lists of rows inside a `DB`
structure, and each HTTP route handler as a pure function
`DB → request → HttpResult payload × DB`.  Row ids are abstract `Nat`s
(fresh ids are drawn from `DB.nextId`, standing for the database's
`gen_random_uuid()` default); instants are `Nat`s and the current time is
passed to handlers that call `NOW()`.  Columns that no modelled handler
reads or writes (display names, contact details, timestamps of creation)
are omitted.  The UUID-format regex checks on path parameters are not
modelled, since ids are abstract rather than strings.

Handlers modelled (from src/api/src/routes):
  * POST /bookings                          (bookings router)   — postBookings
  * POST /public/invites/:hash/bookings     (public router)     — postInviteBookings
  * PATCH /bookings/:id/payment             (bookings router)   — patchPayment
  * POST /studios/:studioId/slots           (slots router)      — postSlots
-/

/-- Row of the `studios` table.  Display columns (slug, name, timezone,
currency) are not read by any modelled handler and are omitted. -/
structure Studio where
  id : Nat
deriving Repr, DecidableEq

/-- Row of the `customers` table.  Name/contact columns are omitted: the
modelled handlers only consult `id` and `studio_id`. -/
structure Customer where
  id : Nat
  studio_id : Nat
deriving Repr, DecidableEq

/-- Row of the `children` table (`created_at` omitted). -/
structure Child where
  id : Nat
  customer_id : Nat
  first_name : String
  avatar_key : Option String
deriving Repr, DecidableEq

/-- Row of the `slots` table. -/
structure Slot where
  id : Nat
  studio_id : Nat
  title : String
  starts_at : Nat
  duration_min : Nat
  recurrence_rule : Option String
  price : Int
  min_participants : Nat
  max_participants : Nat
  for_children : Bool
  active : Bool
deriving Repr, DecidableEq

/-- The `status` column of `bookings` (text with values used by the API). -/
inductive BookingStatus where
  | CONFIRMED
  | CANCELLED
  | NO_SHOW
deriving Repr, DecidableEq

/-- The `payment_method` enum of the schema. -/
inductive PaymentMethod where
  | cash
  | bit
  | paybox
  | transfer
deriving Repr, DecidableEq

/-- Row of the `bookings` table (`created_at` omitted). -/
structure Booking where
  id : Nat
  slot_id : Nat
  customer_id : Option Nat
  child_id : Option Nat
  status : BookingStatus
  paid : Bool
  paid_at : Option Nat
  paid_method : Option PaymentMethod
deriving Repr, DecidableEq

/-- Row of the `invites` table (`id`, `created_at` omitted; the modelled
handler reads `short_hash`, `expires_at`, `customer_id`, `studio_id`). -/
structure Invite where
  studio_id : Nat
  customer_id : Nat
  short_hash : String
  expires_at : Nat
deriving Repr, DecidableEq

/-- The relational store.  `studio_owners` rows are (studio_id, user_id)
pairs.  `nextId` supplies fresh row ids for inserts. -/
structure DB where
  studios : List Studio
  customers : List Customer
  children : List Child
  slots : List Slot
  bookings : List Booking
  invites : List Invite
  studio_owners : List (Nat × Nat)
  nextId : Nat
deriving Repr, DecidableEq

/-- An HTTP response: either a success status (200/201) with a JSON payload,
or an error status with the handler's error message. -/
inductive HttpResult (α : Type) where
  | success (code : Nat) (payload : α)
  | failure (code : Nat) (error : String)
deriving Repr, DecidableEq

/-- The HTTP status code of a response. -/
def HttpResult.status {α : Type} : HttpResult α → Nat
  | .success c _ => c
  | .failure c _ => c

/-- JavaScript `x || null` applied to an optional string: an absent or
empty (falsy) string becomes null. -/
def jsOrNull : Option String → Option String
  | some a => if a == "" then none else some a
  | none => none

/-- Inline child data of the direct booking body (`childData`); zod requires
both fields (avatarKey with min length 1). -/
structure ChildData where
  firstName : String
  avatarKey : String
deriving Repr, DecidableEq

/-- Inline child data of the invite booking body (`child`); avatarKey is
optional there. -/
structure InviteChildData where
  firstName : String
  avatarKey : Option String
deriving Repr, DecidableEq

/-- Parsed body of POST /bookings (after zod field validation; the `.refine`
clause is checked separately by `bodyRefineOk`). -/
structure CreateBookingBody where
  slotId : Nat
  customerId : Option Nat
  childId : Option Nat
  childData : Option ChildData
deriving Repr, DecidableEq

/-- Body of POST /public/invites/:hash/bookings.  `slotId` is read from the
raw body and checked by hand in the route, hence optional here. -/
structure InviteBookingBody where
  slotId : Option Nat
  childId : Option Nat
  child : Option InviteChildData
deriving Repr, DecidableEq

/-- Body of PATCH /bookings/:id/payment. -/
structure PaymentBody where
  paidMethod : PaymentMethod
  paidAt : Option Nat
deriving Repr, DecidableEq

/-- Body of POST /studios/:studioId/slots (before zod validation). -/
structure CreateSlotBody where
  title : String
  startsAt : Nat
  durationMin : Nat
  recurrenceRule : Option String
  price : Int
  minParticipants : Nat
  maxParticipants : Nat
  forChildren : Bool
deriving Repr, DecidableEq

/-- The `.refine` clause of the direct-booking zod schema: at least one of
customerId, childId, childData must be provided. -/
def bodyRefineOk (body : CreateBookingBody) : Bool :=
  body.customerId.isSome || body.childId.isSome || body.childData.isSome

/-- SELECT * FROM slots WHERE id = $1 AND active = true. -/
def slotLookup (db : DB) (slotId : Nat) : Option Slot :=
  db.slots.find? (fun s => s.id == slotId && s.active)

/-- SELECT * FROM slots WHERE id = $1 AND studio_id = $2 AND active = true. -/
def slotLookupForInvite (db : DB) (slotId studioId : Nat) : Option Slot :=
  db.slots.find? (fun s => s.id == slotId && s.studio_id == studioId && s.active)

/-- SELECT id FROM customers WHERE id = $1 AND studio_id = $2 returned a row. -/
def customerInStudio (db : DB) (cid studioId : Nat) : Bool :=
  db.customers.any (fun c => c.id == cid && c.studio_id == studioId)

/-- SELECT ch.id FROM children ch JOIN customers c ON ch.customer_id = c.id
WHERE ch.id = $1 AND c.studio_id = $2 returned a row. -/
def childInStudio (db : DB) (chid studioId : Nat) : Bool :=
  db.children.any (fun ch => ch.id == chid &&
    db.customers.any (fun c => c.id == ch.customer_id && c.studio_id == studioId))

/-- SELECT COUNT(*) FROM bookings WHERE slot_id = $1 — note: no status
filter, so CANCELLED and NO_SHOW rows are counted. -/
def countSlotBookings (db : DB) (slotId : Nat) : Nat :=
  (db.bookings.filter (fun b => b.slot_id == slotId)).length

/-- SELECT max_participants FROM slots WHERE id = $1.  The handler reads
rows[0]; the row exists because the slot was found earlier. -/
def maxParticipantsOf (db : DB) (slotId : Nat) : Nat :=
  match db.slots.find? (fun s => s.id == slotId) with
  | some s => s.max_participants
  | none => 0

/-- The inline child-creation step of POST /bookings: if childData is
supplied without a childId, the customer must be supplied and belong to the
slot's studio, and a child row is inserted under it; otherwise the child id
from the body (possibly none) is the resolved child. -/
def inlineChildDirect (db : DB) (slot : Slot) (body : CreateBookingBody) :
    Except (HttpResult Booking × DB) (Option Nat × DB) :=
  match body.childId, body.childData with
  | none, some cd =>
    match body.customerId with
    | none => .error (.failure 400 "customerId is required when creating a new child", db)
    | some cid =>
      if customerInStudio db cid slot.studio_id then
        .ok (some db.nextId,
          { db with
              children := db.children ++
                [{ id := db.nextId, customer_id := cid,
                   first_name := cd.firstName, avatar_key := some cd.avatarKey }],
              nextId := db.nextId + 1 })
      else
        .error (.failure 404 "Customer not found or does not belong to this studio", db)
  | chid, _ => .ok (chid, db)

/-- The validation phase of POST /bookings (routes/bookings.ts): zod refine,
slot lookup, optional inline child creation, party-type match against
slot.for_children, and studio-scoping of customer and child.  Returns the
error response (with the store as left by the phase) or the slot, the
resolved child id (finalChildId) and the possibly-extended store. -/
def directValidate (db : DB) (body : CreateBookingBody) :
    Except (HttpResult Booking × DB) (Slot × Option Nat × DB) :=
  if !(bodyRefineOk body) then .error (.failure 400 "Validation failed", db)
  else
    match slotLookup db body.slotId with
    | none => .error (.failure 404 "Slot not found or not active", db)
    | some slot =>
      match inlineChildDirect db slot body with
      | .error r => .error r
      | .ok (finalChildId, db1) =>
        if slot.for_children && finalChildId.isNone then
          .error (.failure 400 "This slot requires a child to be specified", db1)
        else if !slot.for_children && finalChildId.isSome then
          .error (.failure 400 "This slot is not for children", db1)
        else if (match body.customerId with
                 | some cid => !(customerInStudio db1 cid slot.studio_id)
                 | none => false) then
          .error (.failure 404 "Customer does not belong to this studio", db1)
        else if (match finalChildId with
                 | some chid => !(childInStudio db1 chid slot.studio_id)
                 | none => false) then
          .error (.failure 404 "Child does not belong to this studio", db1)
        else .ok (slot, finalChildId, db1)

/-- The booking row inserted by both creation paths:
INSERT INTO bookings (slot_id, customer_id, child_id, status, paid, ...)
VALUES ($1, for_children ? null : customerId, for_children ? childId : null,
CONFIRMED, false, ...). -/
def newBookingRow (nid sid : Nat) (forChildren : Bool)
    (customerId childId : Option Nat) : Booking :=
  { id := nid, slot_id := sid,
    customer_id := if forChildren then none else customerId,
    child_id := if forChildren then childId else none,
    status := .CONFIRMED, paid := false, paid_at := none, paid_method := none }

/-- POST /bookings (routes/bookings.ts): validation, then the capacity
check (count of bookings for the slot vs max_participants), then the
insert of a CONFIRMED, unpaid booking row. -/
def postBookings (db : DB) (body : CreateBookingBody) : HttpResult Booking × DB :=
  match directValidate db body with
  | .error r => r
  | .ok (slot, finalChildId, db1) =>
    let bookedCount := countSlotBookings db1 body.slotId
    let maxParticipants := maxParticipantsOf db1 body.slotId
    if bookedCount ≥ maxParticipants then
      (.failure 409 "Slot capacity reached. Cannot create booking.", db1)
    else
      let b := newBookingRow db1.nextId body.slotId slot.for_children
        body.customerId finalChildId
      (.success 201 b, { db1 with bookings := db1.bookings ++ [b], nextId := db1.nextId + 1 })

/-- The invite lookup of POST /public/invites/:hash/bookings:
SELECT i.*, ... FROM invites i JOIN customers c ... JOIN studios s ...
WHERE i.short_hash = $1 AND i.expires_at > NOW(). -/
def inviteLookup (db : DB) (hash : String) (now : Nat) : Option Invite :=
  db.invites.find? (fun i => i.short_hash == hash && now < i.expires_at &&
    db.customers.any (fun c => c.id == i.customer_id) &&
    db.studios.any (fun s => s.id == i.studio_id))

/-- The inline child-creation step of the invite path: if child data is
supplied without a childId, a child row is inserted under the invite's
customer (avatar_key via JavaScript || null). -/
def inlineChildInvite (db : DB) (inviteCustomerId : Nat) (body : InviteBookingBody) :
    Option Nat × DB :=
  match body.childId, body.child with
  | none, some cd =>
    (some db.nextId,
     { db with
         children := db.children ++
           [{ id := db.nextId, customer_id := inviteCustomerId,
              first_name := cd.firstName, avatar_key := jsOrNull cd.avatarKey }],
         nextId := db.nextId + 1 })
  | chid, _ => (chid, db)

/-- POST /public/invites/:hash/bookings (routes/public.ts): invite
resolution, slot lookup scoped to the invite's studio, optional inline
child creation under the invite's customer, party-type match, and the
booking insert.  The route performs no capacity check. -/
def postInviteBookings (db : DB) (hash : String) (body : InviteBookingBody) (now : Nat) :
    HttpResult Booking × DB :=
  match inviteLookup db hash now with
  | none => (.failure 404 "Invite not found or expired", db)
  | some invite =>
    match body.slotId with
    | none => (.failure 400 "slotId must be a valid UUID", db)
    | some slotId =>
      match slotLookupForInvite db slotId invite.studio_id with
      | none => (.failure 404 "Slot not found or not available", db)
      | some slot =>
        let step := inlineChildInvite db invite.customer_id body
        let finalChildId := step.1
        let db1 := step.2
        if slot.for_children && finalChildId.isNone then
          (.failure 400 "This slot requires a child to be specified", db1)
        else if !slot.for_children && finalChildId.isSome then
          (.failure 400 "This slot is not for children", db1)
        else
          let b := newBookingRow db1.nextId slotId slot.for_children
            (some invite.customer_id) finalChildId
          (.success 201 b, { db1 with bookings := db1.bookings ++ [b], nextId := db1.nextId + 1 })

/-- PATCH /bookings/:id/payment (routes/bookings.ts). -/
def patchPayment (db : DB) (bookingId : Nat) (body : PaymentBody) (now : Nat) :
    HttpResult Booking × DB :=
  match db.bookings.find? (fun b => b.id == bookingId) with
  | none => (.failure 404 "Booking not found", db)
  | some bk =>
    if bk.paid then (.failure 400 "Booking is already marked as paid", db)
    else
      let paymentDate := match body.paidAt with | some t => t | none => now
      let db1 : DB :=
        { db with
            bookings := db.bookings.map (fun b =>
              if b.id == bookingId then
                { b with paid := true, paid_at := some paymentDate,
                         paid_method := some body.paidMethod }
              else b) }
      (.success 200
        { bk with paid := true, paid_at := some paymentDate,
                  paid_method := some body.paidMethod }, db1)

/-- The zod schema of POST /studios/:studioId/slots.  minParticipants ≥ 0
is automatic for Nat. -/
def createSlotSchemaOk (b : CreateSlotBody) : Bool :=
  1 ≤ b.title.length && b.title.length ≤ 200 &&
  1 ≤ b.durationMin && b.durationMin ≤ 1440 &&
  0 ≤ b.price && 1 ≤ b.maxParticipants

/-- POST /studios/:studioId/slots (routes/slots.ts): schema validation,
studio existence, the min/max participants check, ownership, insert. -/
def postSlots (db : DB) (studioId userId : Nat) (body : CreateSlotBody) :
    HttpResult Slot × DB :=
  if !(createSlotSchemaOk body) then (.failure 400 "Validation failed", db)
  else if !(db.studios.any (fun s => s.id == studioId)) then
    (.failure 404 "Studio not found", db)
  else if body.minParticipants > body.maxParticipants then
    (.failure 400 "Minimum participants cannot exceed maximum participants", db)
  else if !(db.studio_owners.any (fun o => o.1 == studioId && o.2 == userId)) then
    (.failure 403 "forbidden", db)
  else
    let s : Slot :=
      { id := db.nextId, studio_id := studioId, title := body.title,
        starts_at := body.startsAt, duration_min := body.durationMin,
        recurrence_rule := jsOrNull body.recurrenceRule, price := body.price,
        min_participants := body.minParticipants,
        max_participants := body.maxParticipants,
        for_children := body.forChildren, active := true }
    (.success 201 s, { db with slots := db.slots ++ [s], nextId := db.nextId + 1 })

/-- The one_party CHECK constraint of the bookings table:
(customer_id is not null)::int + (child_id is not null)::int = 1. -/
def onePartyCheck (b : Booking) : Bool :=
  b.customer_id.isSome.toNat + b.child_id.isSome.toNat == 1

/-! ## Support lemmas -/

theorem countSlotBookings_eq_of {db1 db : DB} (h : db1.bookings = db.bookings)
    (s : Nat) : countSlotBookings db1 s = countSlotBookings db s := by
  unfold countSlotBookings; rw [h]

theorem maxParticipantsOf_eq_of {db1 db : DB} (h : db1.slots = db.slots)
    (s : Nat) : maxParticipantsOf db1 s = maxParticipantsOf db s := by
  unfold maxParticipantsOf; rw [h]

theorem inlineChildDirect_error {db : DB} {slot : Slot} {body : CreateBookingBody}
    {r : HttpResult Booking} {db2 : DB}
    (h : inlineChildDirect db slot body = .error (r, db2)) :
    (r.status = 400 ∨ r.status = 404) ∧ db2 = db := by
  unfold inlineChildDirect at h
  repeat' split at h
  all_goals first
    | exact Except.noConfusion h
    | (simp only [Except.error.injEq, Prod.mk.injEq] at h
       obtain ⟨rfl, rfl⟩ := h
       simp [HttpResult.status])

theorem inlineChildDirect_ok {db : DB} {slot : Slot} {body : CreateBookingBody}
    {fcid : Option Nat} {db1 : DB}
    (h : inlineChildDirect db slot body = .ok (fcid, db1)) :
    db1.bookings = db.bookings ∧ db1.slots = db.slots ∧ db1.customers = db.customers ∧
    (fcid = none → body.childId = none ∧ body.childData = none) := by
  unfold inlineChildDirect at h
  repeat' split at h
  all_goals first
    | exact Except.noConfusion h
    | (simp only [Except.ok.injEq, Prod.mk.injEq] at h
       obtain ⟨rfl, rfl⟩ := h
       refine ⟨rfl, rfl, rfl, fun hn => ?_⟩
       first
         | exact Option.noConfusion hn
         | (rename_i hmiss
            refine ⟨hn, ?_⟩
            rcases hx : body.childData with _ | cd
            · rfl
            · exact (hmiss cd hn hx).elim))

theorem directValidate_error {db : DB} {body : CreateBookingBody}
    {r : HttpResult Booking} {db2 : DB}
    (h : directValidate db body = .error (r, db2)) :
    (r.status = 400 ∨ r.status = 404) ∧ db2.bookings = db.bookings ∧
    db2.slots = db.slots ∧ db2.customers = db.customers := by
  unfold directValidate at h
  split at h
  · simp only [Except.error.injEq, Prod.mk.injEq] at h
    obtain ⟨rfl, rfl⟩ := h
    exact ⟨Or.inl rfl, rfl, rfl, rfl⟩
  · split at h
    · simp only [Except.error.injEq, Prod.mk.injEq] at h
      obtain ⟨rfl, rfl⟩ := h
      exact ⟨Or.inr rfl, rfl, rfl, rfl⟩
    · rename_i slot hslot
      split at h
      · rename_i rr hinl
        simp only [Except.error.injEq] at h
        subst h
        obtain ⟨hst, rfl⟩ := inlineChildDirect_error hinl
        exact ⟨hst, rfl, rfl, rfl⟩
      · rename_i fcid db1 hinl
        obtain ⟨hbk, hsl, hcu, -⟩ := inlineChildDirect_ok hinl
        split at h
        · simp only [Except.error.injEq, Prod.mk.injEq] at h
          obtain ⟨rfl, rfl⟩ := h
          exact ⟨Or.inl rfl, hbk, hsl, hcu⟩
        · split at h
          · simp only [Except.error.injEq, Prod.mk.injEq] at h
            obtain ⟨rfl, rfl⟩ := h
            exact ⟨Or.inl rfl, hbk, hsl, hcu⟩
          · split at h
            · simp only [Except.error.injEq, Prod.mk.injEq] at h
              obtain ⟨rfl, rfl⟩ := h
              exact ⟨Or.inr rfl, hbk, hsl, hcu⟩
            · split at h
              · simp only [Except.error.injEq, Prod.mk.injEq] at h
                obtain ⟨rfl, rfl⟩ := h
                exact ⟨Or.inr rfl, hbk, hsl, hcu⟩
              · exact Except.noConfusion h

theorem directValidate_ok {db : DB} {body : CreateBookingBody}
    {slot : Slot} {fcid : Option Nat} {db1 : DB}
    (h : directValidate db body = .ok (slot, fcid, db1)) :
    db1.bookings = db.bookings ∧ db1.slots = db.slots ∧ db1.customers = db.customers ∧
    slotLookup db body.slotId = some slot ∧
    (slot.for_children = true → fcid.isSome = true) ∧
    (slot.for_children = false → fcid = none ∧ body.customerId.isSome = true) ∧
    (∀ cid, body.customerId = some cid → customerInStudio db1 cid slot.studio_id = true) ∧
    (∀ chid, fcid = some chid → childInStudio db1 chid slot.studio_id = true) := by
  unfold directValidate at h
  split at h
  · exact Except.noConfusion h
  · rename_i hrefine
    split at h
    · exact Except.noConfusion h
    · rename_i slot' hslot
      split at h
      · exact Except.noConfusion h
      · rename_i fcid' db1' hinl
        split at h
        · exact Except.noConfusion h
        · rename_i hg1
          split at h
          · exact Except.noConfusion h
          · rename_i hg2
            split at h
            · exact Except.noConfusion h
            · rename_i hg3
              split at h
              · exact Except.noConfusion h
              · rename_i hg4
                simp only [Except.ok.injEq, Prod.mk.injEq] at h
                obtain ⟨rfl, rfl, rfl⟩ := h
                obtain ⟨hbk, hsl, hcu, hnone⟩ := inlineChildDirect_ok hinl
                have hrefine2 : bodyRefineOk body = true := by
                  revert hrefine; cases bodyRefineOk body <;> simp
                refine ⟨hbk, hsl, hcu, hslot, ?_, ?_, ?_, ?_⟩
                · intro hfc
                  rcases hf : fcid' with _ | c
                  · exfalso; apply hg1; rw [hfc, hf]; rfl
                  · rfl
                · intro hfc
                  have hfn : fcid' = none := by
                    rcases hf : fcid' with _ | c
                    · rfl
                    · exfalso; apply hg2; rw [hfc, hf]; rfl
                  refine ⟨hfn, ?_⟩
                  obtain ⟨hcid, hcd⟩ := hnone hfn
                  unfold bodyRefineOk at hrefine2
                  rw [hcid, hcd] at hrefine2
                  simpa using hrefine2
                · intro cid hcid
                  rw [hcid] at hg3
                  simp at hg3
                  exact hg3
                · intro chid hch
                  rw [hch] at hg4
                  simp at hg4
                  exact hg4

theorem postBookings_error_of {db : DB} {body : CreateBookingBody}
    {rr : HttpResult Booking} {db2 : DB}
    (hdv : directValidate db body = .error (rr, db2)) :
    postBookings db body = (rr, db2) := by
  unfold postBookings; rw [hdv]

theorem postBookings_conflict_of {db : DB} {body : CreateBookingBody}
    {slot : Slot} {fcid : Option Nat} {db1 : DB}
    (hdv : directValidate db body = .ok (slot, fcid, db1))
    (hcap : countSlotBookings db1 body.slotId ≥ maxParticipantsOf db1 body.slotId) :
    postBookings db body =
      (.failure 409 "Slot capacity reached. Cannot create booking.", db1) := by
  simp only [postBookings, hdv]
  rw [if_pos hcap]

theorem postBookings_insert_of {db : DB} {body : CreateBookingBody}
    {slot : Slot} {fcid : Option Nat} {db1 : DB}
    (hdv : directValidate db body = .ok (slot, fcid, db1))
    (hcap : ¬ countSlotBookings db1 body.slotId ≥ maxParticipantsOf db1 body.slotId) :
    postBookings db body =
      (.success 201 (newBookingRow db1.nextId body.slotId slot.for_children
          body.customerId fcid),
       { db1 with
           bookings := db1.bookings ++
             [newBookingRow db1.nextId body.slotId slot.for_children
               body.customerId fcid],
           nextId := db1.nextId + 1 }) := by
  simp only [postBookings, hdv]
  rw [if_neg hcap]

theorem inlineChildInvite_store (db : DB) (cid : Nat) (body : InviteBookingBody) :
    (inlineChildInvite db cid body).2.bookings = db.bookings ∧
    (inlineChildInvite db cid body).2.slots = db.slots ∧
    (inlineChildInvite db cid body).2.customers = db.customers := by
  unfold inlineChildInvite
  split <;> exact ⟨rfl, rfl, rfl⟩

theorem postInviteBookings_404invite_of {db : DB} {hash : String}
    {body : InviteBookingBody} {now : Nat}
    (hinv : inviteLookup db hash now = none) :
    postInviteBookings db hash body now =
      (.failure 404 "Invite not found or expired", db) := by
  unfold postInviteBookings; rw [hinv]

theorem postInviteBookings_400slotId_of {db : DB} {hash : String}
    {body : InviteBookingBody} {now : Nat} {inv : Invite}
    (hinv : inviteLookup db hash now = some inv)
    (hsid : body.slotId = none) :
    postInviteBookings db hash body now =
      (.failure 400 "slotId must be a valid UUID", db) := by
  simp only [postInviteBookings, hinv, hsid]

theorem postInviteBookings_404slot_of {db : DB} {hash : String}
    {body : InviteBookingBody} {now : Nat} {inv : Invite} {sid : Nat}
    (hinv : inviteLookup db hash now = some inv)
    (hsid : body.slotId = some sid)
    (hslot : slotLookupForInvite db sid inv.studio_id = none) :
    postInviteBookings db hash body now =
      (.failure 404 "Slot not found or not available", db) := by
  simp only [postInviteBookings, hinv, hsid, hslot]

theorem postInviteBookings_insert_of {db : DB} {hash : String}
    {body : InviteBookingBody} {now : Nat} {inv : Invite} {sid : Nat} {slot : Slot}
    (hinv : inviteLookup db hash now = some inv)
    (hsid : body.slotId = some sid)
    (hslot : slotLookupForInvite db sid inv.studio_id = some slot)
    (hg1 : ¬ (slot.for_children && (inlineChildInvite db inv.customer_id body).1.isNone) = true)
    (hg2 : ¬ (!slot.for_children && (inlineChildInvite db inv.customer_id body).1.isSome) = true) :
    postInviteBookings db hash body now =
      (.success 201
        (newBookingRow (inlineChildInvite db inv.customer_id body).2.nextId sid
          slot.for_children (some inv.customer_id)
          (inlineChildInvite db inv.customer_id body).1),
       { (inlineChildInvite db inv.customer_id body).2 with
           bookings := (inlineChildInvite db inv.customer_id body).2.bookings ++
             [newBookingRow (inlineChildInvite db inv.customer_id body).2.nextId sid
               slot.for_children (some inv.customer_id)
               (inlineChildInvite db inv.customer_id body).1],
           nextId := (inlineChildInvite db inv.customer_id body).2.nextId + 1 }) := by
  simp only [postInviteBookings, hinv, hsid, hslot]
  rw [if_neg hg1, if_neg hg2]

theorem postInviteBookings_mismatch1_of {db : DB} {hash : String}
    {body : InviteBookingBody} {now : Nat} {inv : Invite} {sid : Nat} {slot : Slot}
    (hinv : inviteLookup db hash now = some inv)
    (hsid : body.slotId = some sid)
    (hslot : slotLookupForInvite db sid inv.studio_id = some slot)
    (hg1 : (slot.for_children && (inlineChildInvite db inv.customer_id body).1.isNone) = true) :
    postInviteBookings db hash body now =
      (.failure 400 "This slot requires a child to be specified",
       (inlineChildInvite db inv.customer_id body).2) := by
  simp only [postInviteBookings, hinv, hsid, hslot]
  rw [if_pos hg1]

theorem postInviteBookings_mismatch2_of {db : DB} {hash : String}
    {body : InviteBookingBody} {now : Nat} {inv : Invite} {sid : Nat} {slot : Slot}
    (hinv : inviteLookup db hash now = some inv)
    (hsid : body.slotId = some sid)
    (hslot : slotLookupForInvite db sid inv.studio_id = some slot)
    (hg1 : ¬ (slot.for_children && (inlineChildInvite db inv.customer_id body).1.isNone) = true)
    (hg2 : (!slot.for_children && (inlineChildInvite db inv.customer_id body).1.isSome) = true) :
    postInviteBookings db hash body now =
      (.failure 400 "This slot is not for children",
       (inlineChildInvite db inv.customer_id body).2) := by
  simp only [postInviteBookings, hinv, hsid, hslot]
  rw [if_neg hg1, if_pos hg2]

/-! ## Claim C2 -/

/-- Claim C2: a direct booking request that passes validation (i.e. whose
outcome is 409 or 201) is rejected with 409 exactly when the count of
existing booking rows referencing the slot — counted with no status filter,
so CANCELLED and NO_SHOW rows count — is at least the slot's
max_participants; on 409 no booking row is inserted, and otherwise a
CONFIRMED, unpaid booking row is inserted and returned with 201. -/
theorem direct_booking_capacity_409_iff (db : DB) (body : CreateBookingBody)
    (h : (postBookings db body).1.status = 409 ∨ (postBookings db body).1.status = 201) :
    ((postBookings db body).1.status = 409 ↔
        maxParticipantsOf db body.slotId ≤ countSlotBookings db body.slotId) ∧
    ((postBookings db body).1.status = 409 →
        (postBookings db body).2.bookings = db.bookings) ∧
    ((postBookings db body).1.status = 201 →
      ∃ b, (postBookings db body).1 = .success 201 b ∧
        (postBookings db body).2.bookings = db.bookings ++ [b] ∧
        b.status = .CONFIRMED ∧ b.paid = false ∧ b.slot_id = body.slotId) := by
  rcases hdv : directValidate db body with ⟨rr, db2⟩ | ⟨slot, fcid, db1⟩
  · obtain ⟨hst, hbk, hsl, hcu⟩ := directValidate_error hdv
    rw [postBookings_error_of hdv] at h
    have h2 : rr.status = 409 ∨ rr.status = 201 := h
    exfalso; omega
  · obtain ⟨hbk, hsl, hcu, hlook, hfc1, hfc0, hcust, hchild⟩ := directValidate_ok hdv
    have hcnt : countSlotBookings db1 body.slotId = countSlotBookings db body.slotId :=
      countSlotBookings_eq_of hbk _
    have hmax : maxParticipantsOf db1 body.slotId = maxParticipantsOf db body.slotId :=
      maxParticipantsOf_eq_of hsl _
    by_cases hcap : countSlotBookings db1 body.slotId ≥ maxParticipantsOf db1 body.slotId
    · have hpb := postBookings_conflict_of hdv hcap
      refine ⟨⟨fun _ => by omega, fun _ => by rw [hpb]; rfl⟩, fun _ => ?_, fun hc => ?_⟩
      · rw [hpb]; exact hbk
      · rw [hpb] at hc
        exact absurd hc (by simp [HttpResult.status])
    · have hpb := postBookings_insert_of hdv hcap
      refine ⟨⟨fun hc => ?_, fun hle => ?_⟩, fun hc => ?_, fun _ => ?_⟩
      · rw [hpb] at hc
        exact absurd hc (by simp [HttpResult.status])
      · exfalso; omega
      · rw [hpb] at hc
        exact absurd hc (by simp [HttpResult.status])
      · rw [hpb]
        exact ⟨_, rfl, by rw [← hbk], rfl, rfl, rfl⟩

/-- Concrete store for the C2 witness: an adult slot with capacity 1 whose
single existing booking is CANCELLED, so the next attempt hits 409 even
though the occupying booking is cancelled. -/
def exC2db : DB :=
  { studios := [⟨0⟩], customers := [⟨1, 0⟩, ⟨4, 0⟩], children := [],
    slots := [{ id := 2, studio_id := 0, title := "Morning", starts_at := 0,
                duration_min := 60, recurrence_rule := none, price := 10,
                min_participants := 0, max_participants := 1,
                for_children := false, active := true }],
    bookings := [{ id := 3, slot_id := 2, customer_id := some 1, child_id := none,
                   status := .CANCELLED, paid := false, paid_at := none,
                   paid_method := none }],
    invites := [], studio_owners := [], nextId := 10 }

def exC2body : CreateBookingBody :=
  { slotId := 2, customerId := some 4, childId := none, childData := none }

/-- Claim C2 witness: at the concrete store above the request is rejected
with 409 — the slot-filling booking is CANCELLED, confirming that the
capacity count has no status filter. -/
theorem direct_booking_capacity_409_iff_w :
    ((postBookings exC2db exC2body).1.status = 409 ↔
        maxParticipantsOf exC2db exC2body.slotId ≤ countSlotBookings exC2db exC2body.slotId) ∧
    ((postBookings exC2db exC2body).1.status = 409 →
        (postBookings exC2db exC2body).2.bookings = exC2db.bookings) ∧
    ((postBookings exC2db exC2body).1.status = 201 →
      ∃ b, (postBookings exC2db exC2body).1 = .success 201 b ∧
        (postBookings exC2db exC2body).2.bookings = exC2db.bookings ++ [b] ∧
        b.status = .CONFIRMED ∧ b.paid = false ∧ b.slot_id = exC2body.slotId) :=
  direct_booking_capacity_409_iff exC2db exC2body (Or.inl (by decide))

/-! ## Claim C3 -/

/-- Claim C3: every booking row written by either creation path (direct or
invite) satisfies the exactly-one-party rule: exactly one of customer_id,
child_id is non-null.  Stated as: any row in the post-state was already in
the pre-state or passes the one_party check. -/
theorem booking_rows_one_party :
    (∀ db body, ∀ b ∈ (postBookings db body).2.bookings,
        b ∈ db.bookings ∨ onePartyCheck b = true) ∧
    (∀ db hash body now, ∀ b ∈ (postInviteBookings db hash body now).2.bookings,
        b ∈ db.bookings ∨ onePartyCheck b = true) := by
  constructor
  · intro db body b hb
    rcases hdv : directValidate db body with ⟨rr, db2⟩ | ⟨slot, fcid, db1⟩
    · obtain ⟨hst, hbk, -, -⟩ := directValidate_error hdv
      rw [postBookings_error_of hdv] at hb
      exact Or.inl (hbk ▸ hb)
    · obtain ⟨hbk, hsl, hcu, hlook, hfc1, hfc0, hcust, hchild⟩ := directValidate_ok hdv
      by_cases hcap : countSlotBookings db1 body.slotId ≥ maxParticipantsOf db1 body.slotId
      · rw [postBookings_conflict_of hdv hcap] at hb
        exact Or.inl (hbk ▸ hb)
      · rw [postBookings_insert_of hdv hcap] at hb
        simp only [List.mem_append, List.mem_singleton] at hb
        rcases hb with hb | rfl
        · exact Or.inl (hbk ▸ hb)
        · right
          cases hfc : slot.for_children
          · obtain ⟨hfn, hcs⟩ := hfc0 hfc
            simp [onePartyCheck, newBookingRow, hfc, hfn, hcs]
          · have hcs := hfc1 hfc
            simp [onePartyCheck, newBookingRow, hfc, hcs]
  · intro db hash body now b hb
    rcases hinv : inviteLookup db hash now with _ | inv
    · rw [postInviteBookings_404invite_of hinv] at hb
      exact Or.inl hb
    · rcases hsid : body.slotId with _ | sid
      · rw [postInviteBookings_400slotId_of hinv hsid] at hb
        exact Or.inl hb
      · rcases hslot : slotLookupForInvite db sid inv.studio_id with _ | slot
        · rw [postInviteBookings_404slot_of hinv hsid hslot] at hb
          exact Or.inl hb
        · obtain ⟨hsb, -, -⟩ := inlineChildInvite_store db inv.customer_id body
          by_cases hg1 : (slot.for_children &&
              (inlineChildInvite db inv.customer_id body).1.isNone) = true
          · rw [postInviteBookings_mismatch1_of hinv hsid hslot hg1] at hb
            have hb2 : b ∈ (inlineChildInvite db inv.customer_id body).2.bookings := hb
            exact Or.inl (hsb ▸ hb2)
          · by_cases hg2 : (!slot.for_children &&
                (inlineChildInvite db inv.customer_id body).1.isSome) = true
            · rw [postInviteBookings_mismatch2_of hinv hsid hslot hg1 hg2] at hb
              have hb2 : b ∈ (inlineChildInvite db inv.customer_id body).2.bookings := hb
              exact Or.inl (hsb ▸ hb2)
            · rw [postInviteBookings_insert_of hinv hsid hslot hg1 hg2] at hb
              have hb2 : b ∈ (inlineChildInvite db inv.customer_id body).2.bookings ++
                  [newBookingRow (inlineChildInvite db inv.customer_id body).2.nextId sid
                    slot.for_children (some inv.customer_id)
                    (inlineChildInvite db inv.customer_id body).1] := hb
              simp only [List.mem_append, List.mem_singleton] at hb2
              rcases hb2 with hb2 | rfl
              · exact Or.inl (hsb ▸ hb2)
              · right
                cases hfc : slot.for_children
                · simp [onePartyCheck, newBookingRow, hfc]
                · rw [hfc] at hg1
                  have hs : (inlineChildInvite db inv.customer_id body).1.isSome = true := by
                    rcases hx : (inlineChildInvite db inv.customer_id body).1 with _ | c
                    · exact absurd (by rw [hx]; rfl) hg1
                    · rfl
                  simp [onePartyCheck, newBookingRow, hfc, hs]

/-- A demo store used by several witnesses: one studio, one customer, one
active adult slot with room (max_participants = 2), no bookings. -/
def demoAdultSlot : Slot :=
  { id := 2, studio_id := 0, title := "Morning", starts_at := 0, duration_min := 60,
    recurrence_rule := none, price := 10, min_participants := 0, max_participants := 2,
    for_children := false, active := true }

def demoAdultDb : DB :=
  { studios := [⟨0⟩], customers := [⟨1, 0⟩], children := [], slots := [demoAdultSlot],
    bookings := [], invites := [], studio_owners := [], nextId := 10 }

def demoAdultBody : CreateBookingBody :=
  { slotId := 2, customerId := some 1, childId := none, childData := none }

/-- The booking row created by POST /bookings on the demo store. -/
def demoAdultBooking : Booking :=
  { id := 10, slot_id := 2, customer_id := some 1, child_id := none,
    status := .CONFIRMED, paid := false, paid_at := none, paid_method := none }

/-- Claim C3 witness: the booking row created on the demo store satisfies
the one-party rule. -/
theorem booking_rows_one_party_w :
    demoAdultBooking ∈ demoAdultDb.bookings ∨ onePartyCheck demoAdultBooking = true :=
  booking_rows_one_party.1 demoAdultDb demoAdultBody demoAdultBooking (by decide)

/-! ## Claim C4 -/

/-- Claim C4: on both creation paths an accepted booking's party type
matches the slot's for_children flag (child_id set iff for_children,
customer_id set iff not), and a request whose resolved party type
mismatches the slot is rejected with a 400 and no booking row is
inserted. -/
theorem booking_party_type_matches_slot :
    (∀ db body slot b db2, slotLookup db body.slotId = some slot →
        postBookings db body = (.success 201 b, db2) →
        b.child_id.isSome = slot.for_children ∧
        b.customer_id.isSome = !slot.for_children) ∧
    (∀ db body slot fcid db1, bodyRefineOk body = true →
        slotLookup db body.slotId = some slot →
        inlineChildDirect db slot body = .ok (fcid, db1) →
        ((slot.for_children = true ∧ fcid = none) ∨
         (slot.for_children = false ∧ fcid.isSome = true)) →
        ∃ msg, postBookings db body = (.failure 400 msg, db1) ∧
          db1.bookings = db.bookings) ∧
    (∀ db hash body now inv sid slot b db2, inviteLookup db hash now = some inv →
        body.slotId = some sid →
        slotLookupForInvite db sid inv.studio_id = some slot →
        postInviteBookings db hash body now = (.success 201 b, db2) →
        b.child_id.isSome = slot.for_children ∧
        b.customer_id.isSome = !slot.for_children) ∧
    (∀ db hash body now inv sid slot, inviteLookup db hash now = some inv →
        body.slotId = some sid →
        slotLookupForInvite db sid inv.studio_id = some slot →
        ((slot.for_children = true ∧
            (inlineChildInvite db inv.customer_id body).1 = none) ∨
         (slot.for_children = false ∧
            (inlineChildInvite db inv.customer_id body).1.isSome = true)) →
        ∃ msg, postInviteBookings db hash body now =
            (.failure 400 msg, (inlineChildInvite db inv.customer_id body).2) ∧
          (inlineChildInvite db inv.customer_id body).2.bookings = db.bookings) := by
  refine ⟨?_, ?_, ?_, ?_⟩
  · intro db body slot b db2 hlk hpost
    rcases hdv : directValidate db body with ⟨rr, dbe⟩ | ⟨slot2, fcid, db1⟩
    · obtain ⟨hst, -, -, -⟩ := directValidate_error hdv
      rw [postBookings_error_of hdv] at hpost
      simp only [Prod.mk.injEq] at hpost
      have : rr.status = 201 := by rw [hpost.1]; rfl
      exfalso; omega
    · obtain ⟨hbk, hsl, hcu, hlook, hfc1, hfc0, hcust, hchild⟩ := directValidate_ok hdv
      by_cases hcap : countSlotBookings db1 body.slotId ≥ maxParticipantsOf db1 body.slotId
      · rw [postBookings_conflict_of hdv hcap] at hpost
        exact absurd hpost (by simp)
      · rw [postBookings_insert_of hdv hcap] at hpost
        simp only [Prod.mk.injEq, HttpResult.success.injEq] at hpost
        obtain ⟨⟨-, hbeq⟩, -⟩ := hpost
        have hss : slot2 = slot := Option.some.inj (hlook ▸ hlk)
        rw [hss] at hfc1 hfc0 hbeq
        subst hbeq
        cases hfc : slot.for_children
        · obtain ⟨hfn, hcs⟩ := hfc0 hfc
          simp [newBookingRow, hfc, hfn, hcs]
        · have hcs := hfc1 hfc
          simp [newBookingRow, hfc, hcs]
  · intro db body slot fcid db1 hrefine hlk hinl hmis
    obtain ⟨hbk, -, -, -⟩ := inlineChildDirect_ok hinl
    rcases hmis with ⟨hfc, hfn⟩ | ⟨hfc, hs⟩
    · have hdv : directValidate db body =
          .error (.failure 400 "This slot requires a child to be specified", db1) := by
        simp [directValidate, hrefine, hlk, hinl, hfc, hfn]
      exact ⟨_, postBookings_error_of hdv, hbk⟩
    · have hdv : directValidate db body =
          .error (.failure 400 "This slot is not for children", db1) := by
        simp [directValidate, hrefine, hlk, hinl, hfc, hs]
      exact ⟨_, postBookings_error_of hdv, hbk⟩
  · intro db hash body now inv sid slot b db2 hinv hsid hslot hpost
    by_cases hg1 : (slot.for_children &&
        (inlineChildInvite db inv.customer_id body).1.isNone) = true
    · rw [postInviteBookings_mismatch1_of hinv hsid hslot hg1] at hpost
      exact absurd hpost (by simp)
    · by_cases hg2 : (!slot.for_children &&
          (inlineChildInvite db inv.customer_id body).1.isSome) = true
      · rw [postInviteBookings_mismatch2_of hinv hsid hslot hg1 hg2] at hpost
        exact absurd hpost (by simp)
      · rw [postInviteBookings_insert_of hinv hsid hslot hg1 hg2] at hpost
        simp only [Prod.mk.injEq, HttpResult.success.injEq] at hpost
        obtain ⟨⟨-, hbeq⟩, -⟩ := hpost
        subst hbeq
        cases hfc : slot.for_children
        · simp [newBookingRow, hfc]
        · rw [hfc] at hg1
          have hs : (inlineChildInvite db inv.customer_id body).1.isSome = true := by
            rcases hx : (inlineChildInvite db inv.customer_id body).1 with _ | c
            · exact absurd (by rw [hx]; rfl) hg1
            · rfl
          simp [newBookingRow, hfc, hs]
  · intro db hash body now inv sid slot hinv hsid hslot hmis
    obtain ⟨hsb, -, -⟩ := inlineChildInvite_store db inv.customer_id body
    rcases hmis with ⟨hfc, hfn⟩ | ⟨hfc, hs⟩
    · exact ⟨_, postInviteBookings_mismatch1_of hinv hsid hslot
        (by rw [hfc, hfn]; rfl), hsb⟩
    · exact ⟨_, postInviteBookings_mismatch2_of hinv hsid hslot
        (by simp [hfc]) (by rw [hfc, hs]; rfl), hsb⟩

/-- Claim C4 witness: the booking created on the demo store has a party
type matching the adult slot. -/
theorem booking_party_type_matches_slot_w :
    demoAdultBooking.child_id.isSome = demoAdultSlot.for_children ∧
    demoAdultBooking.customer_id.isSome = !demoAdultSlot.for_children :=
  booking_party_type_matches_slot.1 demoAdultDb demoAdultBody demoAdultSlot
    demoAdultBooking (postBookings demoAdultDb demoAdultBody).2 (by decide) (by decide)

/-! ## Claim C5 -/

/-- Claim C5: an accepted direct booking's party (the customer, or the
child transitively through its customer) belongs to the slot's studio, and
a cross-studio customer or child reference is rejected with the 404
not-found responses of the handler, with no booking row inserted. -/
theorem direct_booking_party_in_studio :
    (∀ db body slot b db2, slotLookup db body.slotId = some slot →
        postBookings db body = (.success 201 b, db2) →
        (∀ cid, b.customer_id = some cid →
           ∃ c ∈ db2.customers, c.id = cid ∧ c.studio_id = slot.studio_id) ∧
        (∀ chid, b.child_id = some chid →
           ∃ k ∈ db2.children, k.id = chid ∧
             ∃ c ∈ db2.customers, c.id = k.customer_id ∧
               c.studio_id = slot.studio_id)) ∧
    (∀ db body slot fcid db1 cid, bodyRefineOk body = true →
        slotLookup db body.slotId = some slot →
        inlineChildDirect db slot body = .ok (fcid, db1) →
        ¬ (slot.for_children && fcid.isNone) = true →
        ¬ (!slot.for_children && fcid.isSome) = true →
        body.customerId = some cid →
        customerInStudio db1 cid slot.studio_id = false →
        postBookings db body =
          (.failure 404 "Customer does not belong to this studio", db1) ∧
        db1.bookings = db.bookings) ∧
    (∀ db body slot fcid db1 chid, bodyRefineOk body = true →
        slotLookup db body.slotId = some slot →
        inlineChildDirect db slot body = .ok (fcid, db1) →
        ¬ (slot.for_children && fcid.isNone) = true →
        ¬ (!slot.for_children && fcid.isSome) = true →
        (match body.customerId with
         | some cid => !(customerInStudio db1 cid slot.studio_id)
         | none => false) = false →
        fcid = some chid →
        childInStudio db1 chid slot.studio_id = false →
        postBookings db body =
          (.failure 404 "Child does not belong to this studio", db1) ∧
        db1.bookings = db.bookings) := by
  refine ⟨?_, ?_, ?_⟩
  · intro db body slot b db2 hlk hpost
    rcases hdv : directValidate db body with ⟨rr, dbe⟩ | ⟨slot2, fcid, db1⟩
    · obtain ⟨hst, -, -, -⟩ := directValidate_error hdv
      rw [postBookings_error_of hdv] at hpost
      simp only [Prod.mk.injEq] at hpost
      have : rr.status = 201 := by rw [hpost.1]; rfl
      exfalso; omega
    · obtain ⟨hbk, hsl, hcu, hlook, hfc1, hfc0, hcust, hchild⟩ := directValidate_ok hdv
      by_cases hcap : countSlotBookings db1 body.slotId ≥ maxParticipantsOf db1 body.slotId
      · rw [postBookings_conflict_of hdv hcap] at hpost
        exact absurd hpost (by simp)
      · rw [postBookings_insert_of hdv hcap] at hpost
        simp only [Prod.mk.injEq, HttpResult.success.injEq] at hpost
        obtain ⟨⟨-, hbeq⟩, hdbeq⟩ := hpost
        have hss : slot2 = slot := Option.some.inj (hlook ▸ hlk)
        rw [hss] at hfc1 hfc0 hcust hchild hbeq
        subst hbeq
        subst hdbeq
        constructor
        · intro cid hc
          cases hfc : slot.for_children
          · rw [show (newBookingRow db1.nextId body.slotId slot.for_children
                body.customerId fcid).customer_id = body.customerId by
                  simp [newBookingRow, hfc]] at hc
            have := hcust cid hc
            simp only [customerInStudio, List.any_eq_true, Bool.and_eq_true,
              beq_iff_eq] at this
            obtain ⟨c, hcmem, hcid, hcst⟩ := this
            exact ⟨c, hcmem, hcid, hcst⟩
          · rw [show (newBookingRow db1.nextId body.slotId slot.for_children
                body.customerId fcid).customer_id = none by
                  simp [newBookingRow, hfc]] at hc
            exact Option.noConfusion hc
        · intro chid hch
          cases hfc : slot.for_children
          · rw [show (newBookingRow db1.nextId body.slotId slot.for_children
                body.customerId fcid).child_id = none by
                  simp [newBookingRow, hfc]] at hch
            exact Option.noConfusion hch
          · rw [show (newBookingRow db1.nextId body.slotId slot.for_children
                body.customerId fcid).child_id = fcid by
                  simp [newBookingRow, hfc]] at hch
            have := hchild chid hch
            simp only [childInStudio, List.any_eq_true, Bool.and_eq_true,
              beq_iff_eq] at this
            obtain ⟨k, hkmem, hkid, c, hcmem, hcid, hcst⟩ := this
            exact ⟨k, hkmem, hkid, c, hcmem, hcid, hcst⟩
  · intro db body slot fcid db1 cid hrefine hlk hinl hg1 hg2 hcid hfalse
    obtain ⟨hbk, -, -, -⟩ := inlineChildDirect_ok hinl
    have hdv : directValidate db body =
        .error (.failure 404 "Customer does not belong to this studio", db1) := by
      simp [directValidate, hrefine, hlk, hinl, hg1, hg2, hcid, hfalse]
    exact ⟨postBookings_error_of hdv, hbk⟩
  · intro db body slot fcid db1 chid hrefine hlk hinl hg1 hg2 hcustok hch hchfalse
    obtain ⟨hbk, -, -, -⟩ := inlineChildDirect_ok hinl
    have hfc : slot.for_children = true := by
      rcases hb : slot.for_children
      · exfalso; apply hg2; rw [hb, hch]; rfl
      · rfl
    have hdv : directValidate db body =
        .error (.failure 404 "Child does not belong to this studio", db1) := by
      simp [directValidate, hrefine, hlk, hinl, hfc, hcustok, hch, hchfalse]
    exact ⟨postBookings_error_of hdv, hbk⟩

/-- Claim C5 witness: the accepted demo booking's customer exists in the
post-state store with the slot's studio id. -/
theorem direct_booking_party_in_studio_w :
    ∃ c ∈ (postBookings demoAdultDb demoAdultBody).2.customers,
      c.id = 1 ∧ c.studio_id = demoAdultSlot.studio_id :=
  (direct_booking_party_in_studio.1 demoAdultDb demoAdultBody demoAdultSlot
    demoAdultBooking (postBookings demoAdultDb demoAdultBody).2
    (by decide) (by decide)).1 1 (by decide)

/-! ## Claim C6 -/

/-- Claim C6: PATCH /bookings/:id/payment returns 404 for an unknown
booking id; returns 400 and leaves the store unchanged when the booking is
already paid; and otherwise sets paid to true, paid_at to the supplied
paidAt (or the current time) and paid_method to the supplied method,
returning the updated row. -/
theorem record_payment_spec :
    (∀ db bid body now, db.bookings.find? (fun b => b.id == bid) = none →
        patchPayment db bid body now = (.failure 404 "Booking not found", db)) ∧
    (∀ db bid body now bk, db.bookings.find? (fun b => b.id == bid) = some bk →
        bk.paid = true →
        patchPayment db bid body now =
          (.failure 400 "Booking is already marked as paid", db)) ∧
    (∀ db bid body now bk, db.bookings.find? (fun b => b.id == bid) = some bk →
        bk.paid = false →
        patchPayment db bid body now =
          (.success 200
            { bk with paid := true,
                      paid_at := some (match body.paidAt with
                                       | some t => t
                                       | none => now),
                      paid_method := some body.paidMethod },
           { db with bookings := db.bookings.map (fun b =>
               if b.id == bid then
                 { b with paid := true,
                          paid_at := some (match body.paidAt with
                                           | some t => t
                                           | none => now),
                          paid_method := some body.paidMethod }
               else b) })) := by
  refine ⟨?_, ?_, ?_⟩
  · intro db bid body now h
    unfold patchPayment; rw [h]
  · intro db bid body now bk h hp
    simp [patchPayment, h, hp]
  · intro db bid body now bk h hp
    simp [patchPayment, h, hp]

/-- A demo store with a single already-paid booking, for the C6 witness. -/
def demoPaidBooking : Booking :=
  { id := 3, slot_id := 2, customer_id := some 1, child_id := none,
    status := .CONFIRMED, paid := true, paid_at := some 5,
    paid_method := some .cash }

def demoPaidDb : DB :=
  { studios := [⟨0⟩], customers := [⟨1, 0⟩], children := [],
    slots := [demoAdultSlot], bookings := [demoPaidBooking],
    invites := [], studio_owners := [], nextId := 20 }

/-- Claim C6 witness: retrying a payment on the already-paid demo booking
fails with 400 and leaves the store unchanged. -/
theorem record_payment_spec_w :
    patchPayment demoPaidDb 3 { paidMethod := .bit, paidAt := none } 50 =
      (.failure 400 "Booking is already marked as paid", demoPaidDb) :=
  record_payment_spec.2.1 demoPaidDb 3 { paidMethod := .bit, paidAt := none } 50
    demoPaidBooking (by decide) (by decide)

/-! ## Claim C8 -/

/-- Claim C8: a booking attempt through an invite whose expires_at is at or
before the current time is rejected with the single 404 response, leaving
the store unchanged, and the full handler result is identical to the result
for a hash that matches no invite at all. -/
theorem expired_invite_indistinguishable
    (db : DB) (hash hash2 : String) (body : InviteBookingBody) (now : Nat)
    (hexp : ∀ i ∈ db.invites, i.short_hash = hash → i.expires_at ≤ now)
    (hunk : ∀ i ∈ db.invites, i.short_hash ≠ hash2) :
    postInviteBookings db hash body now =
      (.failure 404 "Invite not found or expired", db) ∧
    postInviteBookings db hash body now = postInviteBookings db hash2 body now := by
  have h1 : inviteLookup db hash now = none := by
    unfold inviteLookup
    rw [List.find?_eq_none]
    intro i hi hp
    simp only [Bool.and_eq_true, beq_iff_eq, decide_eq_true_eq] at hp
    have hle := hexp i hi hp.1.1.1
    have hlt := hp.1.1.2
    omega
  have h2 : inviteLookup db hash2 now = none := by
    unfold inviteLookup
    rw [List.find?_eq_none]
    intro i hi hp
    simp only [Bool.and_eq_true, beq_iff_eq, decide_eq_true_eq] at hp
    exact absurd hp.1.1.1 (hunk i hi)
  refine ⟨postInviteBookings_404invite_of h1, ?_⟩
  rw [postInviteBookings_404invite_of h1, postInviteBookings_404invite_of h2]

/-- A demo store with one expired invite, for the C8 witness. -/
def demoExpiredDb : DB :=
  { studios := [⟨0⟩], customers := [⟨1, 0⟩], children := [],
    slots := [demoAdultSlot], bookings := [],
    invites := [{ studio_id := 0, customer_id := 1, short_hash := "old",
                  expires_at := 5 }],
    studio_owners := [], nextId := 20 }

/-- Claim C8 witness: at time 10 the expired invite "old" and the unknown
hash "nope" produce the identical 404 result. -/
theorem expired_invite_indistinguishable_w :
    postInviteBookings demoExpiredDb "old"
        { slotId := some 2, childId := none, child := none } 10 =
      (.failure 404 "Invite not found or expired", demoExpiredDb) ∧
    postInviteBookings demoExpiredDb "old"
        { slotId := some 2, childId := none, child := none } 10 =
      postInviteBookings demoExpiredDb "nope"
        { slotId := some 2, childId := none, child := none } 10 :=
  expired_invite_indistinguishable demoExpiredDb "old" "nope"
    { slotId := some 2, childId := none, child := none } 10
    (by decide) (by decide)

/-! ## Claim C9 -/

/-- Claim C9: creating a slot with min_participants strictly greater than
max_participants is rejected with 400 and no slot row is inserted, so the
handler preserves the invariant that every persisted slot satisfies
min_participants less-or-equal max_participants. -/
theorem slot_min_le_max_enforced :
    (∀ db sid uid body, createSlotSchemaOk body = true →
        db.studios.any (fun s => s.id == sid) = true →
        body.maxParticipants < body.minParticipants →
        postSlots db sid uid body =
          (.failure 400 "Minimum participants cannot exceed maximum participants",
           db)) ∧
    (∀ db sid uid body, (∀ s ∈ db.slots, s.min_participants ≤ s.max_participants) →
        ∀ s ∈ (postSlots db sid uid body).2.slots,
          s.min_participants ≤ s.max_participants) := by
  constructor
  · intro db sid uid body hschema hstudio hlt
    have hgt : body.minParticipants > body.maxParticipants := hlt
    simp [postSlots, hschema, hstudio, hgt]
  · intro db sid uid body hall s hs
    unfold postSlots at hs
    split at hs
    · exact hall s hs
    · split at hs
      · exact hall s hs
      · split at hs
        · exact hall s hs
        · rename_i c1 c2 c3
          split at hs
          · exact hall s hs
          · have hs2 : s ∈ db.slots ++
                [{ id := db.nextId, studio_id := sid, title := body.title,
                   starts_at := body.startsAt, duration_min := body.durationMin,
                   recurrence_rule := jsOrNull body.recurrenceRule,
                   price := body.price,
                   min_participants := body.minParticipants,
                   max_participants := body.maxParticipants,
                   for_children := body.forChildren, active := true }] := hs
            simp only [List.mem_append, List.mem_singleton] at hs2
            rcases hs2 with hs2 | rfl
            · exact hall s hs2
            · simpa using Nat.le_of_not_lt c3

/-- A store with one studio owned by user 7, for the C9 witness. -/
def demoOwnedDb : DB :=
  { studios := [⟨0⟩], customers := [], children := [], slots := [],
    bookings := [], invites := [], studio_owners := [(0, 7)], nextId := 40 }

/-- A slot-creation body with minParticipants 5 > maxParticipants 2. -/
def demoBadSlotBody : CreateSlotBody :=
  { title := "Yoga", startsAt := 0, durationMin := 60, recurrenceRule := none,
    price := 10, minParticipants := 5, maxParticipants := 2, forChildren := false }

/-- Claim C9 witness: the min > max slot creation is rejected with 400 and
the store is unchanged. -/
theorem slot_min_le_max_enforced_w :
    postSlots demoOwnedDb 0 7 demoBadSlotBody =
      (.failure 400 "Minimum participants cannot exceed maximum participants",
       demoOwnedDb) :=
  slot_min_le_max_enforced.1 demoOwnedDb 0 7 demoBadSlotBody
    (by decide) (by decide) (by decide)

/-! ## Claim C10 -/

/-- Claim C10: on the direct path with inline child creation (childData
without childId), the child row is inserted before the capacity check, so a
request that then fails with 409 capacity-reached leaves the freshly
created child row persisted while inserting no booking row. -/
theorem inline_child_persists_on_capacity_conflict
    (db : DB) (body : CreateBookingBody) (slot : Slot) (cid : Nat) (cd : ChildData)
    (hcid : body.customerId = some cid)
    (hchid : body.childId = none)
    (hcd : body.childData = some cd)
    (hlk : slotLookup db body.slotId = some slot)
    (hfc : slot.for_children = true)
    (hscope : customerInStudio db cid slot.studio_id = true)
    (hcap : maxParticipantsOf db body.slotId ≤ countSlotBookings db body.slotId) :
    postBookings db body =
      (.failure 409 "Slot capacity reached. Cannot create booking.",
       { db with
           children := db.children ++
             [{ id := db.nextId, customer_id := cid,
                first_name := cd.firstName, avatar_key := some cd.avatarKey }],
           nextId := db.nextId + 1 }) := by
  have hinl : inlineChildDirect db slot body =
      .ok (some db.nextId,
        { db with
            children := db.children ++
              [{ id := db.nextId, customer_id := cid,
                 first_name := cd.firstName, avatar_key := some cd.avatarKey }],
            nextId := db.nextId + 1 }) := by
    simp [inlineChildDirect, hchid, hcd, hcid, hscope]
  have hrefine : bodyRefineOk body = true := by simp [bodyRefineOk, hcid]
  have hscope1 : customerInStudio
      { db with
          children := db.children ++
            [{ id := db.nextId, customer_id := cid,
               first_name := cd.firstName, avatar_key := some cd.avatarKey }],
          nextId := db.nextId + 1 } cid slot.studio_id = true := hscope
  have hchi : childInStudio
      { db with
          children := db.children ++
            [{ id := db.nextId, customer_id := cid,
               first_name := cd.firstName, avatar_key := some cd.avatarKey }],
          nextId := db.nextId + 1 } db.nextId slot.studio_id = true := by
    have hscope2 : db.customers.any
        (fun c => c.id == cid && c.studio_id == slot.studio_id) = true := hscope
    simp [childInStudio, List.any_append, hscope2]
  have hdv : directValidate db body =
      .ok (slot, some db.nextId,
        { db with
            children := db.children ++
              [{ id := db.nextId, customer_id := cid,
                 first_name := cd.firstName, avatar_key := some cd.avatarKey }],
            nextId := db.nextId + 1 }) := by
    simp [directValidate, hrefine, hlk, hinl, hfc, hcid, hscope1, hchi]
  have hcap1 : countSlotBookings
      { db with
          children := db.children ++
            [{ id := db.nextId, customer_id := cid,
               first_name := cd.firstName, avatar_key := some cd.avatarKey }],
          nextId := db.nextId + 1 } body.slotId ≥
      maxParticipantsOf
      { db with
          children := db.children ++
            [{ id := db.nextId, customer_id := cid,
               first_name := cd.firstName, avatar_key := some cd.avatarKey }],
          nextId := db.nextId + 1 } body.slotId := hcap
  exact postBookings_conflict_of hdv hcap1

/-- A store with a full for_children slot, for the C10 witness. -/
def exC10db : DB :=
  { studios := [⟨0⟩], customers := [⟨1, 0⟩],
    children := [{ id := 2, customer_id := 1, first_name := "K",
                   avatar_key := some "a" }],
    slots := [{ id := 3, studio_id := 0, title := "Kids", starts_at := 0,
                duration_min := 45, recurrence_rule := none, price := 5,
                min_participants := 0, max_participants := 1,
                for_children := true, active := true }],
    bookings := [{ id := 4, slot_id := 3, customer_id := none, child_id := some 2,
                   status := .CONFIRMED, paid := false, paid_at := none,
                   paid_method := none }],
    invites := [], studio_owners := [], nextId := 30 }

def exC10body : CreateBookingBody :=
  { slotId := 3, customerId := some 1, childId := none,
    childData := some { firstName := "Kid2", avatarKey := "av2" } }

/-- Claim C10 witness: on the full kids slot the inline-child request is
rejected with 409 while the new child row (id 30) persists. -/
theorem inline_child_persists_on_capacity_conflict_w :
    postBookings exC10db exC10body =
      (.failure 409 "Slot capacity reached. Cannot create booking.",
       { exC10db with
           children := exC10db.children ++
             [{ id := 30, customer_id := 1,
                first_name := "Kid2", avatar_key := some "av2" }],
           nextId := 31 }) :=
  inline_child_persists_on_capacity_conflict exC10db exC10body
    { id := 3, studio_id := 0, title := "Kids", starts_at := 0,
      duration_min := 45, recurrence_rule := none, price := 5,
      min_participants := 0, max_participants := 1,
      for_children := true, active := true }
    1 { firstName := "Kid2", avatarKey := "av2" }
    (by decide) (by decide) (by decide) (by decide) (by decide) (by decide)
    (by decide)

/-! ## Claim C1 -/

/-- Store refuting claim C1: studio 0, customer 1, an active adult slot
(id 2) with max_participants 1 already holding one booking, and a valid
invite with hash "h". -/
def exC1db : DB :=
  { studios := [⟨0⟩], customers := [⟨1, 0⟩], children := [],
    slots := [{ id := 2, studio_id := 0, title := "Full", starts_at := 0,
                duration_min := 60, recurrence_rule := none, price := 10,
                min_participants := 0, max_participants := 1,
                for_children := false, active := true }],
    bookings := [{ id := 3, slot_id := 2, customer_id := some 1, child_id := none,
                   status := .CONFIRMED, paid := false, paid_at := none,
                   paid_method := none }],
    invites := [{ studio_id := 0, customer_id := 1, short_hash := "h",
                  expires_at := 100 }],
    studio_owners := [], nextId := 10 }

def exC1body : InviteBookingBody :=
  { slotId := some 2, childId := none, child := none }

/-- Claim C1 counterexample: the slot is at capacity (1 booking for
max_participants 1), yet the invite-path request is NOT rejected with 409 —
it returns 201 and inserts a second booking row.  The invite route performs
no capacity check. -/
theorem invite_capacity_claim_false :
    maxParticipantsOf exC1db 2 ≤ countSlotBookings exC1db 2 ∧
    (postInviteBookings exC1db "h" exC1body 0).1.status = 201 ∧
    (postInviteBookings exC1db "h" exC1body 0).2.bookings.length =
      exC1db.bookings.length + 1 := by
  refine ⟨by decide, by decide, by decide⟩

/-- Claim C1 (amended): the invite booking path performs no capacity check
at all — whenever the invite resolves, the slot is found active in the
invite's studio and the party type matches (here: an adult slot with no
child supplied), the booking row is inserted and 201 returned, with no
hypothesis on the slot's booking count versus max_participants. -/
theorem invite_booking_no_capacity_check
    (db : DB) (hash : String) (body : InviteBookingBody) (now : Nat)
    (inv : Invite) (sid : Nat) (slot : Slot)
    (hinv : inviteLookup db hash now = some inv)
    (hsid : body.slotId = some sid)
    (hslot : slotLookupForInvite db sid inv.studio_id = some slot)
    (hfc : slot.for_children = false)
    (hchid : body.childId = none) (hcd : body.child = none) :
    postInviteBookings db hash body now =
      (.success 201 (newBookingRow db.nextId sid slot.for_children
          (some inv.customer_id) none),
       { db with
           bookings := db.bookings ++
             [newBookingRow db.nextId sid slot.for_children
               (some inv.customer_id) none],
           nextId := db.nextId + 1 }) := by
  have hstep : inlineChildInvite db inv.customer_id body = (none, db) := by
    simp [inlineChildInvite, hchid, hcd]
  have hg1 : ¬ (slot.for_children &&
      (inlineChildInvite db inv.customer_id body).1.isNone) = true := by
    simp [hstep, hfc]
  have hg2 : ¬ (!slot.for_children &&
      (inlineChildInvite db inv.customer_id body).1.isSome) = true := by
    simp [hstep]
  rw [postInviteBookings_insert_of hinv hsid hslot hg1 hg2, hstep]

/-- Claim C1 amended-theorem witness: at the full slot of the
counterexample store the invite booking still succeeds. -/
theorem invite_booking_no_capacity_check_w :
    postInviteBookings exC1db "h" exC1body 0 =
      (.success 201 (newBookingRow 10 2 false (some 1) none),
       { exC1db with
           bookings := exC1db.bookings ++ [newBookingRow 10 2 false (some 1) none],
           nextId := 11 }) :=
  invite_booking_no_capacity_check exC1db "h" exC1body 0
    { studio_id := 0, customer_id := 1, short_hash := "h", expires_at := 100 }
    2
    { id := 2, studio_id := 0, title := "Full", starts_at := 0,
      duration_min := 60, recurrence_rule := none, price := 10,
      min_participants := 0, max_participants := 1,
      for_children := false, active := true }
    (by decide) (by decide) (by decide) (by decide) (by decide) (by decide)

/-! ## Claim C7 -/

/-- Store refuting claim C7: studio 0, customer 1, child 2 under that
customer, and an active for_children slot (id 3) with room. -/
def exC7db : DB :=
  { studios := [⟨0⟩], customers := [⟨1, 0⟩],
    children := [{ id := 2, customer_id := 1, first_name := "K",
                   avatar_key := some "a" }],
    slots := [{ id := 3, studio_id := 0, title := "Kids", starts_at := 0,
                duration_min := 45, recurrence_rule := none, price := 5,
                min_participants := 0, max_participants := 5,
                for_children := true, active := true }],
    bookings := [], invites := [], studio_owners := [], nextId := 10 }

/-- A direct-booking body supplying BOTH customerId and childId. -/
def exC7body : CreateBookingBody :=
  { slotId := 3, customerId := some 1, childId := some 2, childData := none }

/-- Claim C7 counterexample: a request resolving to two parties (customerId
and childId both supplied) is NOT rejected as malformed — on the
for_children slot it returns 201 and inserts a booking row.  No "ambiguous
party" check exists in the handler. -/
theorem ambiguous_party_claim_false :
    exC7body.customerId.isSome = true ∧ exC7body.childId.isSome = true ∧
    (postBookings exC7db exC7body).1.status = 201 ∧
    (postBookings exC7db exC7body).2.bookings.length =
      exC7db.bookings.length + 1 := by
  refine ⟨by decide, by decide, by decide, by decide⟩

/-- Claim C7 (amended): a direct booking request supplying both customerId
and childId is not rejected as ambiguous.  On a for_children slot, if both
references are in the slot's studio and capacity remains, the booking is
created with 201, carrying only the child (customer_id is null on the
inserted row); on a non-children slot such a request is rejected with the
400 type-mismatch error "This slot is not for children", not an ambiguity
error. -/
theorem both_party_ids_behavior :
    (∀ db body cid chid slot, body.customerId = some cid →
        body.childId = some chid →
        slotLookup db body.slotId = some slot → slot.for_children = true →
        customerInStudio db cid slot.studio_id = true →
        childInStudio db chid slot.studio_id = true →
        ¬ countSlotBookings db body.slotId ≥ maxParticipantsOf db body.slotId →
        postBookings db body =
          (.success 201 (newBookingRow db.nextId body.slotId slot.for_children
              body.customerId (some chid)),
           { db with
               bookings := db.bookings ++
                 [newBookingRow db.nextId body.slotId slot.for_children
                   body.customerId (some chid)],
               nextId := db.nextId + 1 }) ∧
        (newBookingRow db.nextId body.slotId slot.for_children
            body.customerId (some chid)).customer_id = none ∧
        (newBookingRow db.nextId body.slotId slot.for_children
            body.customerId (some chid)).child_id = some chid) ∧
    (∀ db body cid chid slot, body.customerId = some cid →
        body.childId = some chid →
        slotLookup db body.slotId = some slot → slot.for_children = false →
        postBookings db body = (.failure 400 "This slot is not for children", db)) := by
  constructor
  · intro db body cid chid slot hcid hchid hlk hfc hcs hchs hcap
    have hinl : inlineChildDirect db slot body = .ok (some chid, db) := by
      simp [inlineChildDirect, hchid]
    have hrefine : bodyRefineOk body = true := by simp [bodyRefineOk, hcid]
    have hdv : directValidate db body = .ok (slot, some chid, db) := by
      simp [directValidate, hrefine, hlk, hinl, hfc, hcid, hcs, hchs]
    exact ⟨postBookings_insert_of hdv hcap,
      by simp [newBookingRow, hfc], by simp [newBookingRow, hfc]⟩
  · intro db body cid chid slot hcid hchid hlk hfc
    have hinl : inlineChildDirect db slot body = .ok (some chid, db) := by
      simp [inlineChildDirect, hchid]
    have hrefine : bodyRefineOk body = true := by simp [bodyRefineOk, hcid]
    have hdv : directValidate db body =
        .error (.failure 400 "This slot is not for children", db) := by
      simp [directValidate, hrefine, hlk, hinl, hfc, hchid]
    exact postBookings_error_of hdv

/-- Claim C7 amended-theorem witness: on the concrete two-party request the
booking is created carrying only the child. -/
theorem both_party_ids_behavior_w :
    (postBookings exC7db exC7body =
      (.success 201 (newBookingRow 10 3 true (some 1) (some 2)),
       { exC7db with
           bookings := exC7db.bookings ++ [newBookingRow 10 3 true (some 1) (some 2)],
           nextId := 11 }) ∧
     (newBookingRow 10 3 true (some 1) (some 2)).customer_id = none ∧
     (newBookingRow 10 3 true (some 1) (some 2)).child_id = some 2) :=
  both_party_ids_behavior.1 exC7db exC7body 1 2
    { id := 3, studio_id := 0, title := "Kids", starts_at := 0,
      duration_min := 45, recurrence_rule := none, price := 5,
      min_participants := 0, max_participants := 5,
      for_children := true, active := true }
    (by decide) (by decide) (by decide) (by decide) (by decide) (by decide)
    (by decide)
